import Mathlib

/-!
# Verification of the ImgEmbedding2VecDB agent dispatch core

Shallow embedding of `src/app/services/agent_service.py` and
`src/app/routers/agent.py` (intent classification, query optimization,
session store, response/suggestion synthesis, direct action execution
and the chat pipeline), together with theorems settling the frozen
claims about the natural-language specification.

Modelling conventions:
* Python strings are Lean `String`s; `str.lower()` lowercases ASCII
  letters only (CJK characters are fixed points in both languages for
  every string occurring here).
* Python `kw in s` substring tests are the executable `isSubList` below,
  related to the propositional `SubStr` by `isSubList_iff`.
* `datetime.now()` timestamps are abstract `Nat` clock values passed in
  by the caller; their values are never inspected by the code.
* Python dicts with a fixed key set are Lean structures; the mutable
  `_sessions` dict is an association list with Python assignment
  semantics (`setA`).
* Confidence scores (`0.8` etc.) are the rationals `8/10` etc.; the code
  only ever stores and returns these literals, no float arithmetic runs.
-/

namespace ImgAgent

/-- ASCII lowercasing of one character, as Python `str.lower` acts on the
ASCII range (all non-ASCII characters appearing in this code base are
fixed points of Python's `lower`). -/
def lowerChar (c : Char) : Char :=
  if 65 ≤ c.toNat ∧ c.toNat ≤ 90 then Char.ofNat (c.toNat + 32) else c

/-- `query.lower()` on the characters of a string. -/
def lowerStr (s : String) : String := ⟨s.data.map lowerChar⟩

/-- Executable check that `p` is a leading segment of `s`. -/
def prefixB : List Char → List Char → Bool
  | [], _ => true
  | _ :: _, [] => false
  | a :: as, b :: bs => a = b && prefixB as bs

/-- Executable substring check: Python `p in s` on the character lists. -/
def isSubList (p : List Char) : List Char → Bool
  | [] => p.isEmpty
  | c :: t => prefixB p (c :: t) || isSubList p t

/-- Propositional form of the substring relation: `p` occurs contiguously
inside `s`. -/
def SubStr (p s : List Char) : Prop := ∃ a b, s = a ++ (p ++ b)

theorem prefixB_iff (p s : List Char) : prefixB p s = true ↔ ∃ t, s = p ++ t := by
  induction p generalizing s with
  | nil => simp [prefixB]
  | cons a as ih =>
    cases s with
    | nil => simp [prefixB]
    | cons b bs =>
      simp only [prefixB, Bool.and_eq_true, decide_eq_true_eq, ih]
      constructor
      · rintro ⟨rfl, t, rfl⟩; exact ⟨t, rfl⟩
      · rintro ⟨t, h⟩
        injection h with h1 h2
        exact ⟨h1.symm, t, h2⟩

theorem isSubList_iff (p s : List Char) : isSubList p s = true ↔ SubStr p s := by
  induction s with
  | nil =>
    simp only [isSubList, List.isEmpty_iff, SubStr]
    constructor
    · rintro rfl; exact ⟨[], [], rfl⟩
    · rintro ⟨a, b, h⟩
      rcases List.append_eq_nil.mp h.symm with ⟨-, h2⟩
      exact (List.append_eq_nil.mp h2).1
  | cons c t ih =>
    simp only [isSubList, Bool.or_eq_true, prefixB_iff, ih, SubStr]
    constructor
    · rintro (⟨u, h⟩ | ⟨a, b, rfl⟩)
      · exact ⟨[], u, h⟩
      · exact ⟨c :: a, b, rfl⟩
    · rintro ⟨a, b, h⟩
      cases a with
      | nil => exact Or.inl ⟨b, by simpa using h⟩
      | cons x xs =>
        injection h with h1 h2
        exact Or.inr ⟨xs, b, h2⟩

/-- A pattern occurs in any string that syntactically surrounds it. -/
theorem isSubList_surround (p x y : List Char) :
    isSubList p (x ++ (p ++ y)) = true :=
  (isSubList_iff p _).mpr ⟨x, y, rfl⟩

/-- Executable Python-style `pat in s` on strings. -/
def strContains (s pat : String) : Bool := isSubList pat.data s.data

theorem strContains_surround (a b : String) (pat : String) :
    strContains (a ++ (pat ++ b)) pat = true := by
  have h : (a ++ (pat ++ b)).data = a.data ++ (pat.data ++ b.data) := by
    cases a; cases pat; cases b; rfl
  simp only [strContains, h]
  exact isSubList_surround _ _ _

/-! ## Intent classification (`AgentService.detect_intent`) -/

/-- The classifier's result dict `{intent, confidence, entities}`. -/
structure IntentResult where
  intent : String
  confidence : ℚ
  entities : List (String × String)
deriving DecidableEq, Repr

/-- Keyword set for the delete intent, from `detect_intent`. -/
def deleteKws : List String := ["删除", "删掉", "remove", "delete"]

/-- Keyword set for the upload intent, from `detect_intent`. -/
def uploadKws : List String := ["上传", "添加", "upload", "add"]

/-- Keyword set for the analyze intent, from `detect_intent`. -/
def analyzeKws : List String := ["分析", "识别", "这是什么", "analyze"]

/-- Executable test: some keyword of `kws` occurs in `query.lower()`. -/
def hasKw (kws : List String) (q : String) : Bool :=
  kws.any fun kw => strContains (lowerStr q) kw

/-- Propositional form of `hasKw`: case-insensitive substring match of
some keyword of the set against the query. -/
def KwMatch (kws : List String) (q : String) : Prop :=
  ∃ kw ∈ kws, SubStr kw.data (lowerStr q).data

theorem hasKw_iff (kws : List String) (q : String) :
    hasKw kws q = true ↔ KwMatch kws q := by
  simp only [hasKw, List.any_eq_true, strContains, isSubList_iff, KwMatch]

/-- `AgentService.detect_intent`: priority-ordered keyword rules, first
match wins; the default branch is `search`. -/
def detect_intent (q : String) : IntentResult :=
  if hasKw deleteKws q then ⟨"delete", 8/10, []⟩
  else if hasKw uploadKws q then ⟨"upload", 8/10, []⟩
  else if hasKw analyzeKws q then ⟨"analyze", 7/10, []⟩
  else ⟨"search", 9/10, []⟩

/-! ## Session store (`AgentService` state) -/

/-- One record of a session's `history` list.  The reference code only
ever appends `query_optimize` events, so one record shape suffices. -/
structure HistoryEvent where
  type : String
  original : String
  optimized : String
  timestamp : Nat
deriving DecidableEq, Repr

/-- One value of the `_sessions` dict: the per-session dict created by
`create_session` (`user_id`, `created_at`, `history`, `context`). -/
structure Session where
  user_id : Option String
  created_at : Nat
  history : List HistoryEvent
  context : List (String × String)
deriving DecidableEq, Repr

/-- The mutable state of the `AgentService` singleton: the
`_initialized` flag and the `_sessions` dict, plus the state of the
fresh-identifier supply (see `uuidGen`). -/
structure ServiceState where
  initialized : Bool
  sessions : List (String × Session)
  nextId : Nat
deriving Repr

/-- Dict lookup `d.get(k)` on the association-list model. -/
def lookupA (l : List (String × Session)) (k : String) : Option Session :=
  match l with
  | [] => none
  | (k', v) :: t => if k' = k then some v else lookupA t k

/-- Dict assignment `d[k] = v` on the association-list model: replaces
the binding when the key is present, appends it otherwise. -/
def setA (l : List (String × Session)) (k : String) (v : Session) :
    List (String × Session) :=
  match l with
  | [] => [(k, v)]
  | (k', v') :: t => if k' = k then (k, v) :: t else (k', v') :: setA t k v

/-- Model of `uuid.uuid4()`: the uuid library supplies, on each call, a
fresh identifier distinct from every identifier it has produced before
(and never the empty string).  We model that supply as an injective
function of a call counter carried in `ServiceState.nextId`. -/
def uuidGen (n : Nat) : String := ⟨'s' :: List.replicate n 'u'⟩

theorem uuidGen_injective : Function.Injective uuidGen := by
  intro m n h
  have hd : ('s' :: List.replicate m 'u') = ('s' :: List.replicate n 'u') := by
    have := congrArg String.data h
    simpa [uuidGen] using this
  have := congrArg List.length hd
  simpa using this

theorem uuidGen_ne_empty (n : Nat) : uuidGen n ≠ "" := by
  intro h
  have := congrArg String.data h
  simp [uuidGen] at this

/-- `AgentService.create_session`: draws a fresh id, installs an empty
session dict under it, returns the id. -/
def create_session (st : ServiceState) (user_id : Option String) (now : Nat) :
    String × ServiceState :=
  let session_id := uuidGen st.nextId
  (session_id,
   { st with
     nextId := st.nextId + 1
     sessions := setA st.sessions session_id
       { user_id := user_id, created_at := now, history := [], context := [] } })

/-- `AgentService.get_session`: `self._sessions.get(session_id)`. -/
def get_session (st : ServiceState) (session_id : String) : Option Session :=
  lookupA st.sessions session_id

/-- `AgentService.optimize_query`: identity transform on the query; when
a session id is supplied (and truthy — Python `if session_id:` treats
the empty string as absent) and resolves, appends one `query_optimize`
event to that session's history. -/
def optimize_query (st : ServiceState) (user_query : String)
    (session_id : Option String) (now : Nat) : String × ServiceState :=
  let optimized_query := user_query
  match session_id with
  | none => (optimized_query, st)
  | some s =>
    if s = "" then (optimized_query, st)
    else
      match get_session st s with
      | none => (optimized_query, st)
      | some sess =>
        (optimized_query,
         { st with
           sessions := setA st.sessions s
             { sess with
               history := sess.history ++
                 [{ type := "query_optimize", original := user_query,
                    optimized := optimized_query, timestamp := now }] } })

theorem optimize_query_fst (st : ServiceState) (q : String)
    (sid : Option String) (now : Nat) :
    (optimize_query st q sid now).1 = q := by
  cases sid with
  | none => rfl
  | some s =>
    by_cases h : s = "" <;> simp only [optimize_query, h, if_true, if_false]
    · cases get_session st s <;> rfl

/-- `AgentService.__new__` + `__init__`: the class is a process-wide
singleton, so every Python construction `AgentService()` returns the one
instance, but `__init__` runs again on it each time: `_initialized` is
preserved through `getattr(self, '_initialized', False)` while
`_sessions` is reset to `{}`.  `nextId` models the uuid module's own
global state, which `__init__` does not touch. -/
def serviceNew (prev : Option ServiceState) : ServiceState :=
  { initialized := match prev with | some st => st.initialized | none => false
    sessions := []
    nextId := match prev with | some st => st.nextId | none => 0 }

/-! ## Response and suggestion synthesis -/

/-- The `results` dict a chat turn hands to `generate_response` and
`generate_suggestions`: either `{total, images}` (search) or `{message}`
(other intents).  Reading an absent key through `.get` with a default is
modelled by `Option.getD`. -/
structure ResultsDict (Img : Type) where
  total : Option Nat
  images : List Img
  message : Option String

/-- `AgentService.generate_response`: count-sensitive answer templates
for search (`results.get("total", 0)` against 0 / 1 / many), fixed
acknowledgement strings for the other intents; a non-dict `results`
value under intent `search` falls through to the generic closing
string, as in the Python control flow. -/
def generate_response {Img : Type} (intent : String)
    (results : Option (ResultsDict Img)) (user_query : String) : String :=
  if intent = "search" then
    match results with
    | some r =>
      let total := r.total.getD 0
      if total = 0 then
        "抱歉，没有找到与「" ++ (user_query ++ "」相关的照片。可以尝试换个描述方式。")
      else if total = 1 then
        "找到 1 张符合「" ++ (user_query ++ "」的照片。")
      else
        "为您找到了 " ++ (toString total ++ (" 张与「" ++ (user_query ++ "」相关的照片。")))
    | none => "已完成您的请求。"
  else if intent = "delete" then "删除操作已完成。"
  else if intent = "upload" then "图片上传成功。"
  else if intent = "analyze" then "图片分析功能即将上线，敬请期待。"
  else "已完成您的请求。"

/-- `AgentService.generate_suggestions`: three fixed suggestions for
each band of `results.get("total", 0)` under intent `search` with a
dict result; the empty list everywhere else. -/
def generate_suggestions {Img : Type} (intent : String)
    (results : Option (ResultsDict Img)) : List String :=
  if intent = "search" then
    match results with
    | some r =>
      let total := r.total.getD 0
      if total = 0 then ["换个描述试试", "查看所有照片", "按日期筛选"]
      else if 10 < total then ["添加更多细节缩小范围", "按标签过滤", "查看相似图片"]
      else ["查找相似的照片", "这些照片是什么时候拍的", "给这些照片打标签"]
    | none => []
  else []

/-- The result dict of `AgentInterface.execute_action` as read by the
router's `_generate_suggestions`: its `success` flag and the nested
`result.get("result", {}).get("total", 0)` count. -/
structure ExecResultDict where
  success : Bool
  total : Option Nat
deriving DecidableEq, Repr

/-- `src/app/routers/agent.py::_generate_suggestions` (the
direct-execution surface): two suggestions at `total == 0`, two at
`total > 10`, none in between; one acknowledgement each for successful
delete / update. -/
def router_generate_suggestions (action : String) (res : ExecResultDict) :
    List String :=
  if action = "search" then
    if res.success then
      let total := res.total.getD 0
      if total = 0 then ["尝试使用不同的关键词搜索", "检查是否有相关标签可以过滤"]
      else if 10 < total then ["可以添加更具体的描述来缩小搜索范围", "尝试使用标签过滤来精确结果"]
      else []
    else []
  else if action = "delete" then
    if res.success then ["删除操作已完成，相关数据已清理"] else []
  else if action = "update" then
    if res.success then ["更新成功，可以搜索验证更新效果"] else []
  else []

/-! ## Direct action execution (`AgentInterface`) -/

/-- One observable call to a backend collaborator; the functions below
return, next to their result, the ordered list of backend calls they
made, so that "backend not invoked" claims are statements about this
trace.  `Score` is the abstract type of similarity thresholds: the core
only passes thresholds through, never computes with them. -/
inductive BCall (Score : Type) where
  | searchText (query_text : String) (top_k : Nat) (score_threshold : Option Score)
  | storageDelete (image_id : String)
  | vectorDelete (image_id : String)
  | vectorUpdate (image_id : String)

/-- The backend collaborators consumed by `_execute_delete` and
`_execute_update`, as pure interfaces: `storage_service.delete_image`,
`vector_db_service.is_initialized`, `.delete` and `.update_metadata`. -/
structure Backends where
  storage_delete : String → Bool
  vector_initialized : Bool
  vector_delete : String → Bool
  vector_update_metadata : String → Option (List String) → Option String → Bool

/-- Result dict of `_execute_delete` on the success path. -/
structure DeleteOutcome where
  success : Bool
  file_deleted : Bool
  vector_deleted : Bool
  message : String
deriving DecidableEq, Repr

/-- `AgentInterface._execute_delete`: `params.get("image_id")` must be
truthy (`if not image_id: raise ValueError`), then the stored file is
deleted; the vector entry is deleted only when the vector index is
initialized, and its outcome never influences the overall `success`,
which echoes the file deletion alone. -/
def execute_delete (Score : Type) (b : Backends) (image_id : Option String) :
    Except String DeleteOutcome × List (BCall Score) :=
  match image_id with
  | none => (.error "必须提供image_id", [])
  | some iid =>
    if iid = "" then (.error "必须提供image_id", [])
    else
      let file_deleted := b.storage_delete iid
      let vector_deleted := if b.vector_initialized then b.vector_delete iid else false
      let calls := BCall.storageDelete iid ::
        (if b.vector_initialized then [BCall.vectorDelete iid] else [])
      (.ok { success := file_deleted, file_deleted := file_deleted,
             vector_deleted := vector_deleted,
             message := if file_deleted then "图片已删除" else "图片不存在" },
       calls)

/-- Result dict of `_execute_update` on the non-raising paths. -/
structure UpdateOutcome where
  success : Bool
  message : String
deriving DecidableEq, Repr

/-- `AgentInterface._execute_update`: validates `image_id` first, then
builds `update_data` from whichever of `tags` / `description` the
parameter dict carries; with neither present it reports failure with
"未提供任何更新内容" without touching the vector index, otherwise it
forwards the merged update to `update_metadata`. -/
def execute_update (Score : Type) (b : Backends) (image_id : Option String)
    (tags : Option (List String)) (description : Option String) :
    Except String UpdateOutcome × List (BCall Score) :=
  match image_id with
  | none => (.error "必须提供image_id", [])
  | some iid =>
    if iid = "" then (.error "必须提供image_id", [])
    else
      match tags, description with
      | none, none => (.ok { success := false, message := "未提供任何更新内容" }, [])
      | _, _ =>
        let s := b.vector_update_metadata iid tags description
        (.ok { success := s, message := if s then "更新成功" else "更新失败" },
         [BCall.vectorUpdate iid])

/-! ## The chat pipeline (`agent_chat`) -/

/-- The text-search collaborator a chat turn consumes:
`search_service.is_initialized` and `search_by_text`. -/
structure SearchBackend (Score Img : Type) where
  initialized : Bool
  search_by_text : String → Nat → Option Score → List Img

/-- Body of a `ChatMessage`: `{query, session_id?, top_k,
score_threshold?}`. -/
structure ChatMessageM (Score : Type) where
  query : String
  session_id : Option String
  top_k : Nat
  score_threshold : Option Score

/-- Body of a `ChatResponse`. -/
structure ChatResponseM (Img : Type) where
  session_id : String
  answer : String
  intent : String
  optimized_query : String
  results : Option (ResultsDict Img)
  suggestions : List String
  timestamp : Nat

/-- `agent_chat`, steps 1–2: ensure the service is initialized, then
create-or-resolve the session (a falsy `session_id` creates one; an id
that does not resolve creates one as well). Returns the session id the
turn will use together with the updated state. -/
def chatSession (st : ServiceState) (session_id : Option String) (now : Nat) :
    String × ServiceState :=
  let p :=
    match session_id with
    | none => create_session st none now
    | some s => if s = "" then create_session st none now else (s, st)
  match get_session p.2 p.1 with
  | some _ => p
  | none => create_session p.2 none now

/-- `src/app/routers/agent.py::agent_chat`: the full chat turn —
set the service flag, resolve session, detect intent, optimize the query (which
appends the history event), dispatch on the intent (search calls the
backend, the other intents return fixed redirect messages), then
synthesize answer and suggestions.  An uninitialized search backend
aborts the turn with HTTP 503.  The returned trace lists the backend
calls the turn made. -/
def agent_chat {Score Img : Type} (search : SearchBackend Score Img)
    (st0 : ServiceState) (msg : ChatMessageM Score) (now : Nat) :
    (Except Nat (ChatResponseM Img) × ServiceState) × List (BCall Score) :=
  let st1 := if st0.initialized then st0 else { st0 with initialized := true }
  let p := chatSession st1 msg.session_id now
  let intent := (detect_intent msg.query).intent
  let q := optimize_query p.2 msg.query (some p.1) now
  if intent = "search" then
    if search.initialized then
      let found := search.search_by_text q.1 msg.top_k msg.score_threshold
      let results : ResultsDict Img :=
        { total := some found.length, images := found, message := none }
      ((.ok { session_id := p.1
              answer := generate_response intent (some results) msg.query
              intent := intent
              optimized_query := q.1
              results := some results
              suggestions := generate_suggestions intent (some results)
              timestamp := now }, q.2),
       [BCall.searchText q.1 msg.top_k msg.score_threshold])
    else ((.error 503, q.2), [])
  else
    let results : ResultsDict Img :=
      { total := none, images := []
        message := some
          (if intent = "delete" then "删除功能需要指定图片ID，请使用 /agent/execute 接口"
           else if intent = "upload" then "上传功能请使用 /storage/upload 接口"
           else if intent = "analyze" then "图片分析功能即将上线"
           else "抱歉，我还不太理解您的意思") }
    ((.ok { session_id := p.1
            answer := generate_response intent (some results) msg.query
            intent := intent
            optimized_query := q.1
            results := some results
            suggestions := generate_suggestions intent (some results)
            timestamp := now }, q.2),
     [])

/-! ## Association-list lemmas (Python dict semantics) -/

/-- The keys of the `_sessions` dict. -/
def keysL (l : List (String × Session)) : List String := l.map Prod.fst

theorem lookupA_setA_self (l : List (String × Session)) (k : String) (v : Session) :
    lookupA (setA l k v) k = some v := by
  induction l with
  | nil => simp [setA, lookupA]
  | cons p t ih =>
    obtain ⟨a, b⟩ := p
    by_cases h : a = k
    · simp [setA, h, lookupA]
    · simp [setA, h, lookupA, ih]

theorem lookupA_setA_ne (l : List (String × Session)) (k k' : String) (v : Session)
    (h : k' ≠ k) : lookupA (setA l k v) k' = lookupA l k' := by
  induction l with
  | nil => simp [setA, lookupA, Ne.symm h]
  | cons p t ih =>
    obtain ⟨a, b⟩ := p
    by_cases hak : a = k
    · subst hak
      simp [setA, lookupA, Ne.symm h]
    · by_cases hak' : a = k'
      · subst hak'
        simp [setA, lookupA, h]
      · simp [setA, hak, lookupA, hak', ih]

theorem mem_keysL_setA (l : List (String × Session)) (k k' : String) (v : Session) :
    k' ∈ keysL (setA l k v) ↔ k' ∈ keysL l ∨ k' = k := by
  induction l with
  | nil => simp [setA, keysL]
  | cons p t ih =>
    obtain ⟨a, b⟩ := p
    by_cases hak : a = k
    · subst hak
      simp [setA, keysL]
      tauto
    · simp [setA, hak, keysL] at *
      tauto

theorem keysL_setA_mem (l : List (String × Session)) (k : String) (v : Session)
    (h : k ∈ keysL l) : keysL (setA l k v) = keysL l := by
  induction l with
  | nil => simp [keysL] at h
  | cons p t ih =>
    obtain ⟨a, b⟩ := p
    by_cases hak : a = k
    · simp [setA, hak, keysL]
    · simp only [keysL, List.map_cons, List.mem_cons] at h
      rcases h with h | h
      · exact absurd h.symm hak
      · have h2 := ih (by simpa [keysL] using h)
        simp only [keysL] at h2
        simp [setA, hak, keysL, h2]

theorem lookupA_mem_keysL (l : List (String × Session)) (k : String) (v : Session)
    (h : lookupA l k = some v) : k ∈ keysL l := by
  induction l with
  | nil => simp [lookupA] at h
  | cons p t ih =>
    obtain ⟨a, b⟩ := p
    by_cases hak : a = k
    · simp [keysL, hak]
    · simp [lookupA, hak] at h
      exact List.mem_cons_of_mem _ (ih h)

/-! ## Session-store operation sequences and invariants -/

/-- One session-store operation of the public surface: create a session,
run a `query_optimize` append through `optimize_query`, or a (pure)
lookup. -/
inductive AgentOp where
  | create (user_id : Option String) (now : Nat)
  | optimize (q : String) (sid : Option String) (now : Nat)
  | getSess (sid : String)

/-- State transformer of one operation. -/
def applyOp (st : ServiceState) : AgentOp → ServiceState
  | .create uid now => (create_session st uid now).2
  | .optimize q sid now => (optimize_query st q sid now).2
  | .getSess _ => st

/-- Run a sequence of session-store operations left to right. -/
def runOps (st : ServiceState) : List AgentOp → ServiceState
  | [] => st
  | op :: t => runOps (applyOp st op) t

/-- State invariant: every key of the `_sessions` dict was produced by
an earlier draw of the identifier supply. -/
def Inv (st : ServiceState) : Prop :=
  ∀ k ∈ keysL st.sessions, ∃ m, m < st.nextId ∧ k = uuidGen m

/-- A freshly drawn identifier is not among the current keys. -/
theorem create_fresh (st : ServiceState) (h : Inv st) (uid : Option String) (now : Nat) :
    (create_session st uid now).1 ∉ keysL st.sessions := by
  intro hmem
  obtain ⟨m, hm, hk⟩ := h _ hmem
  exact absurd (uuidGen_injective hk.symm) (by omega)

/-- One operation preserves the invariant and, for every session already
stored, keeps it resolvable with the same `user_id` and `created_at`
and with its history only extended at the end. -/
theorem applyOp_preserves (st : ServiceState) (op : AgentOp) (h : Inv st) :
    Inv (applyOp st op) ∧
    ∀ sid sess, get_session st sid = some sess →
      ∃ sess', get_session (applyOp st op) sid = some sess' ∧
        sess'.user_id = sess.user_id ∧
        sess'.created_at = sess.created_at ∧
        ∃ ext, sess'.history = sess.history ++ ext := by
  cases op with
  | getSess s => exact ⟨h, fun sid sess hs => ⟨sess, hs, rfl, rfl, [], by simp⟩⟩
  | create uid now =>
    have happ : applyOp st (.create uid now) =
        { st with
          nextId := st.nextId + 1
          sessions := setA st.sessions (uuidGen st.nextId)
            { user_id := uid, created_at := now, history := [], context := [] } } := rfl
    rw [happ]
    constructor
    · intro k hk
      rcases (mem_keysL_setA _ _ _ _).mp hk with hk | hk
      · obtain ⟨m, hm, rfl⟩ := h _ hk
        exact ⟨m, Nat.lt_succ_of_lt hm, rfl⟩
      · exact ⟨st.nextId, Nat.lt_succ_self _, hk⟩
    · intro sid sess hs
      refine ⟨sess, ?_, rfl, rfl, [], by simp⟩
      have hfresh : uuidGen st.nextId ∉ keysL st.sessions := create_fresh st h uid now
      have hne : sid ≠ uuidGen st.nextId := fun heq =>
        hfresh (heq ▸ lookupA_mem_keysL _ _ _ hs)
      exact (lookupA_setA_ne _ _ _ _ hne).trans hs
  | optimize q sid? now =>
    cases sid? with
    | none => exact ⟨h, fun sid sess hs => ⟨sess, hs, rfl, rfl, [], by simp⟩⟩
    | some s =>
      by_cases hs0 : s = ""
      · subst hs0
        exact ⟨h, fun sid sess hs => ⟨sess, hs, rfl, rfl, [], by simp⟩⟩
      cases hg : get_session st s with
      | none =>
        have happ : applyOp st (.optimize q (some s) now) = st := by
          simp [applyOp, optimize_query, hs0, hg]
        rw [happ]
        exact ⟨h, fun sid sess hs => ⟨sess, hs, rfl, rfl, [], by simp⟩⟩
      | some sess0 =>
        have hmem : s ∈ keysL st.sessions := lookupA_mem_keysL _ _ _ hg
        have happ : applyOp st (.optimize q (some s) now) =
            { st with
              sessions := setA st.sessions s
                { sess0 with
                  history := sess0.history ++
                    [{ type := "query_optimize", original := q, optimized := q,
                       timestamp := now }] } } := by
          simp [applyOp, optimize_query, hs0, hg]
        rw [happ]
        constructor
        · intro k hk
          rw [show keysL (setA st.sessions s _) = keysL st.sessions from
            keysL_setA_mem _ _ _ hmem] at hk
          exact h _ hk
        · intro sid sess hs
          by_cases hsid : sid = s
          · subst hsid
            rw [hg] at hs
            injection hs with hs
            subst hs
            refine ⟨{ sess0 with
              history := sess0.history ++
                [{ type := "query_optimize", original := q, optimized := q,
                   timestamp := now }] }, ?_, rfl, rfl,
              [{ type := "query_optimize", original := q, optimized := q,
                 timestamp := now }], rfl⟩
            exact lookupA_setA_self _ _ _
          · refine ⟨sess, ?_, rfl, rfl, [], by simp⟩
            exact (lookupA_setA_ne _ _ _ _ hsid).trans hs

/-- A whole operation sequence preserves the invariant and the
append-only view of every stored session. -/
theorem runOps_preserves (st : ServiceState) (ops : List AgentOp) (h : Inv st) :
    Inv (runOps st ops) ∧
    ∀ sid sess, get_session st sid = some sess →
      ∃ sess', get_session (runOps st ops) sid = some sess' ∧
        sess'.user_id = sess.user_id ∧
        sess'.created_at = sess.created_at ∧
        ∃ ext, sess'.history = sess.history ++ ext := by
  induction ops generalizing st with
  | nil => exact ⟨h, fun sid sess hs => ⟨sess, hs, rfl, rfl, [], by simp⟩⟩
  | cons op t ih =>
    obtain ⟨h1, h2⟩ := applyOp_preserves st op h
    obtain ⟨h3, h4⟩ := ih (applyOp st op) h1
    refine ⟨h3, fun sid sess hs => ?_⟩
    obtain ⟨s1, hs1, hu1, hc1, e1, he1⟩ := h2 sid sess hs
    obtain ⟨s2, hs2, hu2, hc2, e2, he2⟩ := h4 sid s1 hs1
    exact ⟨s2, hs2, hu2.trans hu1, hc2.trans hc1, e1 ++ e2,
      by rw [he2, he1, List.append_assoc]⟩

/-- Identifiers returned by `n` consecutive `create_session` calls (the
ids do not depend on the caller-supplied `user_id`s or clock values, so
those are fixed here). -/
def consecutiveCreateIds (st : ServiceState) : Nat → List String
  | 0 => []
  | n + 1 =>
    let p := create_session st none 0
    p.1 :: consecutiveCreateIds p.2 n

theorem consecutiveCreateIds_eq (st : ServiceState) (n : Nat) :
    consecutiveCreateIds st n = (List.range n).map fun i => uuidGen (st.nextId + i) := by
  induction n generalizing st with
  | zero => rfl
  | succ n ih =>
    rw [consecutiveCreateIds, List.range_succ_eq_map]
    simp only [List.map_cons, List.map_map, ih, create_session]
    refine congrArg₂ _ (by rw [Nat.add_zero]) ?_
    refine List.map_congr_left fun i _ => ?_
    simp only [Function.comp]
    exact congrArg uuidGen (by omega)

theorem consecutiveCreateIds_nodup (st : ServiceState) (n : Nat) :
    (consecutiveCreateIds st n).Nodup := by
  rw [consecutiveCreateIds_eq]
  exact List.Nodup.map
    (fun a b hab => by
      have := uuidGen_injective hab
      omega)
    (List.nodup_range n)

/-! ## Claims -/

theorem hasKw_eq_false (kws : List String) (q : String) (h : ¬ KwMatch kws q) :
    hasKw kws q = false := by
  rcases Bool.eq_false_or_eq_true (hasKw kws q) with hb | hb
  · exact absurd ((hasKw_iff kws q).mp hb) h
  · exact hb

/-- C1 (counterexample to the claim as frozen): the claim says the
suggestion list for intent search has exactly 2 entries when the total
is 0; the chat-path generator `AgentService.generate_suggestions`
returns 3 suggestions there, and the one generator that does return 2
at total 0 — the router's `_generate_suggestions` — returns 0, not 3,
in the `1 ≤ total ≤ 10` band, so the claimed 2/3/3 profile holds for
neither generator. -/
theorem C1_counterexample :
    (generate_suggestions "search"
      (some (⟨some 0, [], none⟩ : ResultsDict Unit))).length = 3 ∧
    ¬ (generate_suggestions "search"
      (some (⟨some 0, [], none⟩ : ResultsDict Unit))).length = 2 ∧
    (router_generate_suggestions "search" { success := true, total := some 5 }).length = 0 ∧
    ¬ (router_generate_suggestions "search" { success := true, total := some 5 }).length = 3 :=
  ⟨rfl, by decide, rfl, by decide⟩

/-- C1 (amended): for every search results dict with total count `t`,
the suggestion list `AgentService.generate_suggestions` produces for
intent search has exactly 3 entries when `t = 0`, exactly 3 when
`t > 10`, and exactly 3 when `1 ≤ t ≤ 10`; every other intent/result
combination yields the empty list.  On the direct-execution surface,
`_generate_suggestions` for a successful search yields 2 entries when
`t = 0`, 2 when `t > 10`, and 0 when `1 ≤ t ≤ 10`. -/
theorem C1_suggestion_counts {Img : Type} (t : Nat) (r : ResultsDict Img)
    (intent : String) (results : Option (ResultsDict Img))
    (ht : r.total = some t) :
    (t = 0 → (generate_suggestions "search" (some r)).length = 3) ∧
    (10 < t → (generate_suggestions "search" (some r)).length = 3) ∧
    (1 ≤ t → t ≤ 10 → (generate_suggestions "search" (some r)).length = 3) ∧
    (intent ≠ "search" → generate_suggestions intent results = []) ∧
    (generate_suggestions intent (none : Option (ResultsDict Img)) = []) ∧
    (t = 0 → (router_generate_suggestions "search" ⟨true, some t⟩).length = 2) ∧
    (10 < t → (router_generate_suggestions "search" ⟨true, some t⟩).length = 2) ∧
    (1 ≤ t → t ≤ 10 → (router_generate_suggestions "search" ⟨true, some t⟩).length = 0) := by
  refine ⟨?_, ?_, ?_, ?_, ?_, ?_, ?_, ?_⟩
  · rintro rfl
    simp [generate_suggestions, ht]
  · intro h10
    have h0 : ¬ t = 0 := by omega
    simp [generate_suggestions, ht, h0, h10]
  · intro h1 h10
    have h0 : ¬ t = 0 := by omega
    have hlt : ¬ 10 < t := by omega
    simp [generate_suggestions, ht, h0, hlt]
  · intro h
    simp [generate_suggestions, h]
  · by_cases hi : intent = "search" <;> simp [generate_suggestions, hi]
  · rintro rfl
    simp [router_generate_suggestions]
  · intro h10
    have h0 : ¬ t = 0 := by omega
    simp [router_generate_suggestions, h0, h10]
  · intro h1 h10
    have h0 : ¬ t = 0 := by omega
    have hlt : ¬ 10 < t := by omega
    simp [router_generate_suggestions, h0, hlt]

/-- C1 witness: the amended count at total 0 on a concrete dict. -/
theorem C1_suggestion_counts_witness :
    ((⟨some 0, [], none⟩ : ResultsDict Unit).total = some 0) ∧
    (generate_suggestions "search" (some (⟨some 0, [], none⟩ : ResultsDict Unit))).length = 3 :=
  ⟨rfl, (C1_suggestion_counts 0 ⟨some 0, [], none⟩ "search" none rfl).1 rfl⟩

/-- C2: intent classification is priority-ordered with first match
winning, by case-insensitive substring matching against the fixed
keyword sets: delete keywords give `delete` at confidence 0.8, else
upload keywords give `upload` at 0.8, else analyze keywords give
`analyze` at 0.7, else the result is `search` at 0.9; `unknown` is
never emitted and the entities mapping is always empty. -/
theorem C2_detect_intent_spec (q : String) :
    (KwMatch deleteKws q → detect_intent q = ⟨"delete", 8/10, []⟩) ∧
    (¬ KwMatch deleteKws q → KwMatch uploadKws q →
       detect_intent q = ⟨"upload", 8/10, []⟩) ∧
    (¬ KwMatch deleteKws q → ¬ KwMatch uploadKws q → KwMatch analyzeKws q →
       detect_intent q = ⟨"analyze", 7/10, []⟩) ∧
    (¬ KwMatch deleteKws q → ¬ KwMatch uploadKws q → ¬ KwMatch analyzeKws q →
       detect_intent q = ⟨"search", 9/10, []⟩) ∧
    (detect_intent q).intent ≠ "unknown" ∧
    (detect_intent q).entities = [] := by
  refine ⟨?_, ?_, ?_, ?_, ?_, ?_⟩
  · intro h1
    simp [detect_intent, (hasKw_iff _ _).mpr h1]
  · intro h1 h2
    simp [detect_intent, hasKw_eq_false _ _ h1, (hasKw_iff _ _).mpr h2]
  · intro h1 h2 h3
    simp [detect_intent, hasKw_eq_false _ _ h1, hasKw_eq_false _ _ h2,
      (hasKw_iff _ _).mpr h3]
  · intro h1 h2 h3
    simp [detect_intent, hasKw_eq_false _ _ h1, hasKw_eq_false _ _ h2,
      hasKw_eq_false _ _ h3]
  · cases hb1 : hasKw deleteKws q <;> cases hb2 : hasKw uploadKws q <;>
      cases hb3 : hasKw analyzeKws q <;> simp [detect_intent, hb1, hb2, hb3]
  · cases hb1 : hasKw deleteKws q <;> cases hb2 : hasKw uploadKws q <;>
      cases hb3 : hasKw analyzeKws q <;> simp [detect_intent, hb1, hb2, hb3]

/-- C2 witness: a query carrying a delete keyword classifies as
`delete` with confidence 0.8 and empty entities. -/
theorem C2_detect_intent_witness :
    KwMatch deleteKws "请删除这张照片" ∧
    detect_intent "请删除这张照片" = ⟨"delete", 8/10, []⟩ := by
  have h : KwMatch deleteKws "请删除这张照片" := (hasKw_iff _ _).mp (by decide)
  exact ⟨h, (C2_detect_intent_spec "请删除这张照片").1 h⟩

/-- C3: `optimize_query` returns the query unchanged for every query
and session id; when the id is supplied, nonempty (session ids are uuid
strings, so the empty string — falsy in Python — never names a
session) and resolves, exactly one `query_optimize` event recording
original, optimized and timestamp is appended at the end of that
session's history and every other session is untouched; when the id is
absent, empty, or does not resolve, the state is unchanged and no error
is raised (the function is total). -/
theorem C3_optimize_query_contract (st : ServiceState) (q : String) (now : Nat) :
    (∀ sid, (optimize_query st q sid now).1 = q) ∧
    ((optimize_query st q none now).2 = st) ∧
    ((optimize_query st q (some "") now).2 = st) ∧
    (∀ s, s ≠ "" → get_session st s = none →
       (optimize_query st q (some s) now).2 = st) ∧
    (∀ s sess, s ≠ "" → get_session st s = some sess →
       get_session (optimize_query st q (some s) now).2 s =
         some { sess with history := sess.history ++
           [{ type := "query_optimize", original := q, optimized := q,
              timestamp := now }] } ∧
       ∀ s', s' ≠ s →
         get_session (optimize_query st q (some s) now).2 s' = get_session st s') := by
  refine ⟨fun sid => optimize_query_fst st q sid now, rfl, rfl, ?_, ?_⟩
  · intro s hs0 hg
    have hg' : lookupA st.sessions s = none := hg
    simp [optimize_query, get_session, hs0, hg']
  · intro s sess hs0 hg
    have hg' : lookupA st.sessions s = some sess := hg
    constructor
    · simp only [optimize_query, get_session, hs0, if_false, hg']
      exact lookupA_setA_self _ _ _
    · intro s' hs'
      simp only [optimize_query, get_session, hs0, if_false, hg']
      exact lookupA_setA_ne _ _ _ _ hs'

/-- C3 witness: one optimize call on a one-session state. -/
theorem C3_optimize_query_witness :
    (("s" : String) ≠ "") ∧
    (get_session ⟨false, [("s", ⟨none, 0, [], []⟩)], 1⟩ "s" = some ⟨none, 0, [], []⟩) ∧
    ((optimize_query ⟨false, [("s", ⟨none, 0, [], []⟩)], 1⟩ "cats" (some "s") 5).1 = "cats") ∧
    (get_session (optimize_query ⟨false, [("s", ⟨none, 0, [], []⟩)], 1⟩ "cats"
        (some "s") 5).2 "s" =
      some ⟨none, 0, [⟨"query_optimize", "cats", "cats", 5⟩], []⟩) := by
  have hmain := C3_optimize_query_contract ⟨false, [("s", ⟨none, 0, [], []⟩)], 1⟩ "cats" 5
  refine ⟨by decide, rfl, hmain.1 (some "s"), ?_⟩
  have h2 := (hmain.2.2.2.2 "s" ⟨none, 0, [], []⟩ (by decide) rfl).1
  simpa using h2

/-- C4: for a direct-execution delete with `image_id` present, the
overall `success` flag equals the file-deletion outcome alone, with the
vector outcome reported independently in `vector_deleted`; in
particular, when storage deletion succeeds and vector deletion fails or
the vector index is uninitialized (and hence skipped), the result is
`success = true`, `file_deleted = true`, `vector_deleted = false`. -/
theorem C4_delete_partial_failure (Score : Type) (b : Backends) (iid : String)
    (hne : iid ≠ "") :
    ((execute_delete Score b (some iid)).1 =
      .ok { success := b.storage_delete iid
            file_deleted := b.storage_delete iid
            vector_deleted := if b.vector_initialized then b.vector_delete iid else false
            message := if b.storage_delete iid then "图片已删除" else "图片不存在" }) ∧
    (b.storage_delete iid = true →
      (b.vector_initialized = false ∨ b.vector_delete iid = false) →
      (execute_delete Score b (some iid)).1 =
        .ok { success := true, file_deleted := true, vector_deleted := false,
              message := "图片已删除" }) := by
  constructor
  · simp [execute_delete, hne]
  · intro hsd hv
    rcases hv with hv | hv <;> simp [execute_delete, hne, hsd, hv]

/-- C4 witness: storage succeeds, vector deletion fails, overall
success still true. -/
theorem C4_delete_partial_failure_witness :
    (("img1" : String) ≠ "") ∧
    ((⟨fun _ => true, true, fun _ => false, fun _ _ _ => true⟩ : Backends).storage_delete
       "img1" = true) ∧
    ((⟨fun _ => true, true, fun _ => false, fun _ _ _ => true⟩ : Backends).vector_initialized
        = false ∨
     (⟨fun _ => true, true, fun _ => false, fun _ _ _ => true⟩ : Backends).vector_delete
       "img1" = false) ∧
    ((execute_delete Unit
        ⟨fun _ => true, true, fun _ => false, fun _ _ _ => true⟩ (some "img1")).1 =
      .ok { success := true, file_deleted := true, vector_deleted := false,
            message := "图片已删除" }) :=
  ⟨by decide, rfl, Or.inr rfl,
   (C4_delete_partial_failure Unit ⟨fun _ => true, true, fun _ => false, fun _ _ _ => true⟩ "img1" (by decide)).2 rfl (Or.inr rfl)⟩

/-- C5: a direct-execution delete or update whose parameter map lacks
`image_id` fails with the validation error before any backend
collaborator is invoked (the call trace is empty), and an update with
`image_id` present but neither `tags` nor `description` returns
`success = false` with the "nothing to update" message, again with an
empty call trace (the vector index is not invoked). -/
theorem C5_validation_before_backend (Score : Type) (b : Backends) (iid : String)
    (hne : iid ≠ "") :
    (execute_delete Score b none = (.error "必须提供image_id", [])) ∧
    (∀ tags description, execute_update Score b none tags description =
       (.error "必须提供image_id", [])) ∧
    (execute_update Score b (some iid) none none =
       (.ok { success := false, message := "未提供任何更新内容" }, [])) := by
  refine ⟨rfl, fun _ _ => rfl, ?_⟩
  simp [execute_update, hne]

/-- C5 witness: the no-op update on a concrete backend. -/
theorem C5_validation_before_backend_witness :
    (("img1" : String) ≠ "") ∧
    (execute_update Unit
        ⟨fun _ => true, true, fun _ => true, fun _ _ _ => true⟩ (some "img1") none none =
      (.ok { success := false, message := "未提供任何更新内容" }, [])) :=
  ⟨by decide, (C5_validation_before_backend Unit ⟨fun _ => true, true, fun _ => true, fun _ _ _ => true⟩ "img1" (by decide)).2.2⟩

theorem strContains_append_right (a b pat : String)
    (h : strContains b pat = true) : strContains (a ++ b) pat = true := by
  have hd : (a ++ b).data = a.data ++ b.data := by cases a; cases b; rfl
  rw [strContains, hd]
  obtain ⟨x, y, hxy⟩ := (isSubList_iff _ _).mp h
  exact (isSubList_iff _ _).mpr ⟨a.data ++ x, y, by rw [hxy, List.append_assoc]⟩

/-- C6: the generated search answer is count-sensitive: total 0 yields
the apologetic message, which contains the query string and the
rephrase suggestion "换个描述方式"; total 1 yields the singular "找到 1
张……" template; total above 1 yields the plural "为您找到了 {total}
张……" template, which contains the literal count. -/
theorem C6_generate_response_counts {Img : Type} (q : String) (t : Nat)
    (r : ResultsDict Img) (ht : r.total = some t) :
    (t = 0 →
      strContains (generate_response "search" (some r) q) q = true ∧
      strContains (generate_response "search" (some r) q) "换个描述方式" = true) ∧
    (t = 1 →
      generate_response "search" (some r) q =
        "找到 1 张符合「" ++ (q ++ "」的照片。")) ∧
    (1 < t →
      generate_response "search" (some r) q =
        "为您找到了 " ++ (toString t ++ (" 张与「" ++ (q ++ "」相关的照片。"))) ∧
      strContains (generate_response "search" (some r) q) (toString t) = true) := by
  refine ⟨?_, ?_, ?_⟩
  · rintro rfl
    have hr : generate_response "search" (some r) q =
        "抱歉，没有找到与「" ++ (q ++ "」相关的照片。可以尝试换个描述方式。") := by
      simp [generate_response, ht]
    rw [hr]
    refine ⟨strContains_surround _ _ _, ?_⟩
    refine strContains_append_right _ _ _ (strContains_append_right _ _ _ ?_)
    decide
  · rintro rfl
    simp [generate_response, ht]
  · intro h1
    have h0 : ¬ t = 0 := by omega
    have hne1 : ¬ t = 1 := by omega
    have hr : generate_response "search" (some r) q =
        "为您找到了 " ++ (toString t ++ (" 张与「" ++ (q ++ "」相关的照片。"))) := by
      simp [generate_response, ht, h0, hne1]
    rw [hr]
    exact ⟨rfl, strContains_surround _ _ _⟩

/-- C6 witness: the plural template at total 12 contains the literal
count. -/
theorem C6_generate_response_witness :
    ((⟨some 12, [], none⟩ : ResultsDict Unit).total = some 12) ∧ (1 < 12) ∧
    (generate_response "search" (some (⟨some 12, [], none⟩ : ResultsDict Unit)) "小狗" =
      "为您找到了 " ++ (toString 12 ++ (" 张与「" ++ ("小狗" ++ "」相关的照片。")))) ∧
    (strContains
      (generate_response "search" (some (⟨some 12, [], none⟩ : ResultsDict Unit)) "小狗")
      (toString 12) = true) := by
  have h := (C6_generate_response_counts "小狗" 12
    (⟨some 12, [], none⟩ : ResultsDict Unit) rfl).2.2 (by norm_num)
  exact ⟨rfl, by norm_num, h.1, h.2⟩

/-- C7: a chat turn whose query carries a delete keyword classifies as
`delete`; the chat handler answers with a results payload whose message
is the non-empty redirect to the direct-execution endpoint
`/agent/execute`, and the turn makes no backend call at all — in
particular no storage or vector-index delete. -/
theorem C7_chat_delete_redirect {Score Img : Type} (search : SearchBackend Score Img)
    (st : ServiceState) (msg : ChatMessageM Score) (now : Nat)
    (h : KwMatch deleteKws msg.query) :
    (detect_intent msg.query).intent = "delete" ∧
    (agent_chat search st msg now).2 = [] ∧
    ∃ resp, ((agent_chat search st msg now).1).1 = .ok resp ∧
      resp.intent = "delete" ∧
      resp.results =
        some ⟨none, [], some "删除功能需要指定图片ID，请使用 /agent/execute 接口"⟩ ∧
      ("删除功能需要指定图片ID，请使用 /agent/execute 接口" : String) ≠ "" ∧
      strContains "删除功能需要指定图片ID，请使用 /agent/execute 接口" "/agent/execute" = true := by
  have hb : hasKw deleteKws msg.query = true := (hasKw_iff _ _).mpr h
  have hi : detect_intent msg.query = ⟨"delete", 8/10, []⟩ := by
    simp [detect_intent, hb]
  refine ⟨by rw [hi], ?_, ?_⟩
  · simp [agent_chat, hi]
  · have hmain : ((agent_chat search st msg now).1).1 = .ok
        { session_id := (chatSession
            (if st.initialized then st else { st with initialized := true })
            msg.session_id now).1
          answer := "删除操作已完成。"
          intent := "delete"
          optimized_query := msg.query
          results := some ⟨none, [], some "删除功能需要指定图片ID，请使用 /agent/execute 接口"⟩
          suggestions := []
          timestamp := now } := by
      simp [agent_chat, hi, optimize_query_fst, generate_response, generate_suggestions]
    exact ⟨_, hmain, rfl, rfl, by decide, by decide⟩

/-- C7 witness: the concrete query `"删除这张照片"` on a concrete
initial state and a ready search backend. -/
theorem C7_chat_delete_redirect_witness :
    KwMatch deleteKws "删除这张照片" ∧
    (agent_chat (⟨true, fun _ _ _ => ([] : List Unit)⟩ : SearchBackend Unit Unit)
      ⟨false, [], 0⟩ ⟨"删除这张照片", none, 10, none⟩ 0).2 = [] := by
  have h : KwMatch deleteKws "删除这张照片" := (hasKw_iff _ _).mp (by decide)
  exact ⟨h, (C7_chat_delete_redirect _ _ ⟨"删除这张照片", none, 10, none⟩ 0 h).2.1⟩

/-- C8: a chat turn resolved to intent search fails with the
service-unavailable condition (HTTP 503) and makes no backend call when
the search backend is not ready; otherwise it invokes text search
exactly once with the optimized query (the identity rewrite of the
input query), the requested `top_k` and the optional `score_threshold`,
and the returned results payload has `total` equal to the length of its
ordered image list. -/
theorem C8_chat_search_dispatch {Score Img : Type} (search : SearchBackend Score Img)
    (st : ServiceState) (msg : ChatMessageM Score) (now : Nat)
    (hintent : (detect_intent msg.query).intent = "search") :
    (search.initialized = false →
      ((agent_chat search st msg now).1).1 = .error 503 ∧
      (agent_chat search st msg now).2 = []) ∧
    (search.initialized = true →
      (agent_chat search st msg now).2 =
        [.searchText msg.query msg.top_k msg.score_threshold] ∧
      ∃ resp, ((agent_chat search st msg now).1).1 = .ok resp ∧
        resp.optimized_query = msg.query ∧
        resp.results = some
          ⟨some (search.search_by_text msg.query msg.top_k msg.score_threshold).length,
           search.search_by_text msg.query msg.top_k msg.score_threshold, none⟩ ∧
        (∀ rd, resp.results = some rd → rd.total = some rd.images.length)) := by
  constructor
  · intro hinit
    constructor <;> simp [agent_chat, hintent, hinit]
  · intro hinit
    refine ⟨?_, ?_⟩
    · simp [agent_chat, hintent, hinit, optimize_query_fst]
    · have hmain : ((agent_chat search st msg now).1).1 = .ok
          { session_id := (chatSession
              (if st.initialized then st else { st with initialized := true })
              msg.session_id now).1
            answer := generate_response "search"
              (some ⟨some (search.search_by_text msg.query msg.top_k
                  msg.score_threshold).length,
                search.search_by_text msg.query msg.top_k msg.score_threshold, none⟩)
              msg.query
            intent := "search"
            optimized_query := msg.query
            results := some
              ⟨some (search.search_by_text msg.query msg.top_k msg.score_threshold).length,
               search.search_by_text msg.query msg.top_k msg.score_threshold, none⟩
            suggestions := generate_suggestions "search"
              (some ⟨some (search.search_by_text msg.query msg.top_k
                  msg.score_threshold).length,
                search.search_by_text msg.query msg.top_k msg.score_threshold, none⟩)
            timestamp := now } := by
        simp [agent_chat, hintent, hinit, optimize_query_fst]
      refine ⟨_, hmain, rfl, rfl, ?_⟩
      intro rd hrd
      injection hrd with hrd
      rw [← hrd]

/-- C8 witness: a keyword-free query dispatches to search on a ready
backend with the stated trace. -/
theorem C8_chat_search_dispatch_witness :
    (detect_intent "小狗照片").intent = "search" ∧
    ((⟨true, fun _ _ _ => ([(), ()] : List Unit)⟩ : SearchBackend Unit Unit).initialized
       = true) ∧
    (agent_chat (⟨true, fun _ _ _ => ([(), ()] : List Unit)⟩ : SearchBackend Unit Unit)
       ⟨false, [], 0⟩ ⟨"小狗照片", none, 5, none⟩ 0).2 =
      [.searchText "小狗照片" 5 none] := by
  have h : (detect_intent "小狗照片").intent = "search" := by decide
  exact ⟨h, rfl,
    ((C8_chat_search_dispatch _ ⟨false, [], 0⟩ ⟨"小狗照片", none, 5, none⟩ 0 h).2 rfl).1⟩

/-- C9: across every sequence of session-store operations, a created
identifier is fresh — distinct from every key currently stored and from
every identifier the supply produced before — consecutive creates yield
pairwise distinct ids (in particular 10,000 of them), and every stored
session keeps its `user_id` and `created_at` unchanged while its
history is only ever extended by appends at the end. -/
theorem C9_session_invariants (st : ServiceState) (h : Inv st) :
    (∀ uid now, (create_session st uid now).1 ∉ keysL st.sessions ∧
       ∀ m, m < st.nextId → (create_session st uid now).1 ≠ uuidGen m) ∧
    (∀ n, (consecutiveCreateIds st n).Nodup) ∧
    (∀ ops sid sess, get_session st sid = some sess →
       ∃ sess', get_session (runOps st ops) sid = some sess' ∧
         sess'.user_id = sess.user_id ∧
         sess'.created_at = sess.created_at ∧
         ∃ ext, sess'.history = sess.history ++ ext) := by
  refine ⟨?_, fun n => consecutiveCreateIds_nodup st n,
    fun ops => (runOps_preserves st ops h).2⟩
  intro uid now
  refine ⟨create_fresh st h uid now, fun m hm heq => ?_⟩
  have heq' : uuidGen st.nextId = uuidGen m := heq
  have := uuidGen_injective heq'
  omega

/-- C9 witness: from the empty initial state, 10,000 consecutive
creates yield pairwise distinct identifiers. -/
theorem C9_session_invariants_witness :
    Inv ⟨false, [], 0⟩ ∧ (consecutiveCreateIds ⟨false, [], 0⟩ 10000).Nodup := by
  have hinv : Inv ⟨false, [], 0⟩ := by
    intro k hk
    simp [keysL] at hk
  exact ⟨hinv, (C9_session_invariants _ hinv).2.1 10000⟩

/-- C10: re-running the `AgentService` constructor (the singleton's
`__init__`) preserves `_initialized` (and the identifier supply, which
lives in the uuid module) but resets `_sessions` to empty, so every
session resolvable before the construction is unresolvable after it. -/
theorem C10_singleton_reset (st : ServiceState) (sid : String) (sess : Session)
    (_h : get_session st sid = some sess) :
    (serviceNew (some st)).initialized = st.initialized ∧
    (serviceNew (some st)).nextId = st.nextId ∧
    (serviceNew (some st)).sessions = [] ∧
    get_session (serviceNew (some st)) sid = none :=
  ⟨rfl, rfl, rfl, rfl⟩

/-- C10 witness: a concrete pre-construction session is gone after the
constructor re-runs. -/
theorem C10_singleton_reset_witness :
    get_session ⟨true, [("s", ⟨none, 0, [], []⟩)], 1⟩ "s" = some ⟨none, 0, [], []⟩ ∧
    get_session (serviceNew (some ⟨true, [("s", ⟨none, 0, [], []⟩)], 1⟩)) "s" = none :=
  ⟨rfl, (C10_singleton_reset ⟨true, [("s", ⟨none, 0, [], []⟩)], 1⟩ "s"
    ⟨none, 0, [], []⟩ rfl).2.2.2⟩

end ImgAgent
